import Mathlib

/-!
# pmimalloc: mirrored host/device memory, pinning decoration, registration point

A shallow embedding of

* `include/pmimalloc/mirrored_user_memory.hpp` (class `mirrored_user_memory<Base>`),
* `include/not_pinned.hpp` (class `not_pinned<Memory>`),
* `include/register.hpp` (`register_fn`, the `register_memory` customization point).

Conventions of the embedding.

* `void*`, `uintptr_t` and `std::size_t` are 64 bit words, embedded as `Nat` with an
  explicit `% WORD` wherever the C++ arithmetic can wrap.  `nullptr` is `0` and
  `MAP_FAILED` is `(void*) -1`.
* The operating system and the accelerator runtime (`mmap`, `madvise`, `munmap`,
  `cudaMalloc`, `cudaFree`, `cudaPointerGetAttributes`) are collaborators: their answers
  come from an environment `Env`, every call is appended to a trace of `Event`s, and an
  answer may depend on the whole trace so far.
* A data member that a constructor does not initialise has an indeterminate value in
  C++.  Constructors therefore take the previous content of the object's storage as an
  argument (`Storage`) and read the uninitialised members from it.
-/

namespace pmimalloc

/-- The modulus of `std::size_t` and `uintptr_t` arithmetic. -/
def WORD : Nat := 2 ^ 64

/-- The null pointer. -/
def nullptr : Nat := 0

/-- The value `MAP_FAILED`, that is `(void*) -1`. -/
def MAP_FAILED : Nat := WORD - 1

/-- The messages the code prints (`fmt::print`, `std::cerr`), one per call site. -/
inductive Msg
  /-- Printed text: `[error] Both pointers live on the same kind of memory !` -/
  | both_pointers_same_kind
  /-- Printed text: `Skipped std::free (mi_option_limit_os_alloc)` -/
  | skipped_free
  /-- Printed text: `[error] mmap failed (error thrown)` -/
  | mmap_failed
  /-- Printed text: `Host memory of size .. mmaped` -/
  | host_mmaped
  /-- Printed text: `[error] Host allocation failed` -/
  | host_allocation_failed
  /-- Printed text: `Aligned host pointer` -/
  | aligned_host_pointer
  /-- Printed text: `Device memory of size .. cudaMallocated` -/
  | device_cudaMallocated
  /-- Printed text: `[error] Device allocation failed` -/
  | device_allocation_failed
  /-- Printed text: `Aligned device pointer` -/
  | aligned_device_pointer
  /-- Printed text: `[error] munmap failed` -/
  | munmap_failed
  /-- Printed text: `Host memory munmaped` -/
  | host_munmaped
  /-- Printed text: `Device memory cudaFreed` -/
  | device_cudaFreed
  /-- Printed text: `[error] null or odd alignement!` -/
  | null_or_odd_alignement
  deriving DecidableEq, Repr

/-- One call of a collaborator, with its arguments, or one printed message. -/
inductive Event
  | mmap (length : Nat)
  | madvise (addr length : Nat)
  | munmap (addr length : Nat)
  | cudaMalloc (size : Nat)
  | cudaFree (devPtr : Nat)
  | print (msg : Msg)
  deriving DecidableEq, Repr

/-- The answer of `cudaMalloc(&p, size)`: the error code and, when the runtime writes
through `&p`, the value it writes. -/
structure CudaMallocAnswer where
  err : Nat
  stored : Option Nat
  deriving DecidableEq, Repr

/-- The collaborators.  `cudaPointerGetAttributes p` gives the error code and
`attributes.type`; the other answers may depend on the trace of earlier calls. -/
structure Env where
  cudaPointerGetAttributes : Nat → Nat × Nat
  mmap : List Event → Nat → Nat
  munmap : List Event → Nat → Nat → Int
  cudaMalloc : List Event → Nat → CudaMallocAnswer

/-- The data members of `mirrored_user_memory` (the base subobject `Base` is empty). -/
structure mirrored_user_memory where
  m_from_host : Bool
  m_from_device : Bool
  m_address : Nat
  m_address_device : Nat
  m_raw_address : Nat
  m_raw_address_device : Nat
  m_size : Nat
  m_total_size : Nat
  m_numa_node : Int
  deriving DecidableEq, Repr

/-- The content of the storage of the members without a default member initialiser,
before a constructor runs. -/
structure Storage where
  m_address : Nat
  m_address_device : Nat
  m_raw_address : Nat
  m_raw_address_device : Nat
  m_size : Nat
  m_total_size : Nat
  m_numa_node : Int
  deriving DecidableEq, Repr

/-- An object under construction or destruction together with the trace so far. -/
structure State where
  obj : mirrored_user_memory
  trace : List Event

namespace mirrored_user_memory

/-- Source: `bool is_on_device(const void* ptr)`. -/
def is_on_device (env : Env) (ptr : Nat) : Bool :=
  let err := (env.cudaPointerGetAttributes ptr).1
  let type := (env.cudaPointerGetAttributes ptr).2
  if err ≠ 0 || type ≠ 2 then false else true

/-- Source: `void _set_total_size(const std::size_t alignment)`.  In the last branch
`alignment` is not zero, so `m_size + alignment - 1` wraps exactly as written. -/
def _set_total_size (st : State) (alignment : Nat) : State :=
  if alignment = 0 then
    { st with obj := { st.obj with m_total_size := st.obj.m_size } }
  else if alignment &&& (alignment - 1) ≠ 0 then
    { st with trace := st.trace ++ [Event.print Msg.null_or_odd_alignement] }
  else
    { st with obj := { st.obj with m_total_size := (st.obj.m_size + alignment - 1) % WORD } }

/-- Source: `void* _align(void* ptr, const std::size_t alignment)`. -/
def _align (ptr alignment : Nat) : Nat :=
  if alignment = 0 then ptr
  else
    let unaligned_ptr := ptr
    let misalignment := unaligned_ptr % alignment
    let adjustment := if misalignment = 0 then 0 else alignment - misalignment
    let aligned_ptr := (unaligned_ptr + adjustment) % WORD
    aligned_ptr

/-- Source: `void _host_alloc(const std::size_t alignment = 0)`. -/
def _host_alloc (env : Env) (st : State) (alignment : Nat) : State :=
  let st1 := _set_total_size st alignment
  let r := env.mmap st1.trace st1.obj.m_total_size
  let st2 : State :=
    { obj := { st1.obj with m_raw_address := r }
      trace := st1.trace ++ [Event.mmap st1.obj.m_total_size] }
  if st2.obj.m_raw_address = MAP_FAILED then
    { obj := { st2.obj with m_raw_address := nullptr }
      trace := st2.trace ++ [Event.print Msg.mmap_failed] }
  else
    let st3 : State :=
      { st2 with
        trace := st2.trace ++ [Event.madvise st2.obj.m_raw_address st2.obj.m_total_size,
          Event.print Msg.host_mmaped] }
    if st3.obj.m_raw_address = nullptr then
      { st3 with trace := st3.trace ++ [Event.print Msg.host_allocation_failed] }
    else
      { obj := { st3.obj with m_address := _align st3.obj.m_raw_address alignment }
        trace := st3.trace ++ [Event.print Msg.aligned_host_pointer] }

/-- Source: `void _device_alloc(const std::size_t alignment = 0)`.  The return code of
`cudaMalloc` is not looked at; `m_raw_address_device` changes only if the runtime
stores through the pointer it is given. -/
def _device_alloc (env : Env) (st : State) (alignment : Nat) : State :=
  let st1 := _set_total_size st alignment
  let answer := env.cudaMalloc st1.trace st1.obj.m_total_size
  let raw := match answer.stored with
    | some p => p
    | none => st1.obj.m_raw_address_device
  let st2 : State :=
    { obj := { st1.obj with m_raw_address_device := raw }
      trace := st1.trace ++ [Event.cudaMalloc st1.obj.m_total_size,
        Event.print Msg.device_cudaMallocated] }
  if st2.obj.m_raw_address_device = nullptr then
    { st2 with trace := st2.trace ++ [Event.print Msg.device_allocation_failed] }
  else
    { obj := { st2.obj with
               m_address_device := _align st2.obj.m_raw_address_device alignment }
      trace := st2.trace ++ [Event.print Msg.aligned_device_pointer] }

/-- Source: `void _mirror_alloc(const std::size_t alignment, size_t size)`; the
parameter `size` is not used by the body. -/
def _mirror_alloc (env : Env) (st : State) (alignment _size : Nat) : State :=
  let st1 := _set_total_size st alignment
  let st2 := _host_alloc env st1 alignment
  _device_alloc env st2 alignment

/-- Source: `void _host_dealloc(void)`. -/
def _host_dealloc (env : Env) (st : State) : State :=
  let rc := env.munmap st.trace st.obj.m_raw_address st.obj.m_total_size
  let st1 : State :=
    { st with trace := st.trace ++ [Event.munmap st.obj.m_raw_address st.obj.m_total_size] }
  if rc ≠ 0 then
    { st1 with trace := st1.trace ++ [Event.print Msg.munmap_failed] }
  else
    { st1 with trace := st1.trace ++ [Event.print Msg.host_munmaped] }

/-- Source: `void _device_dealloc(void)`. -/
def _device_dealloc (st : State) : State :=
  { st with
    trace := st.trace ++ [Event.cudaFree st.obj.m_raw_address_device,
      Event.print Msg.device_cudaFreed] }

/-- Source: `~mirrored_user_memory()`, with `MI_SKIP_COLLECT_ON_EXIT` not defined (the
only configuration in which `val` is declared). -/
def dtor (env : Env) (st : State) : State :=
  let val : Int := 0
  let st1 :=
    if val = 0 then
      if !st.obj.m_from_host then _host_dealloc env st else st
    else
      { st with trace := st.trace ++ [Event.print Msg.skipped_free] }
  if !st1.obj.m_from_device then _device_dealloc st1 else st1

/-- Source: `mirrored_user_memory() = default;` used for default-initialisation: the
two flags take their default member initialisers, the other members keep what the
storage held. -/
def ctor_default (u : Storage) : mirrored_user_memory :=
  { m_from_host := false
    m_from_device := false
    m_address := u.m_address
    m_address_device := u.m_address_device
    m_raw_address := u.m_raw_address
    m_raw_address_device := u.m_raw_address_device
    m_size := u.m_size
    m_total_size := u.m_total_size
    m_numa_node := u.m_numa_node }

/-- Storage filled with zero bytes. -/
def zeroed : Storage :=
  { m_address := 0
    m_address_device := 0
    m_raw_address := 0
    m_raw_address_device := 0
    m_size := 0
    m_total_size := 0
    m_numa_node := 0 }

/-- Source: the expression `mirrored_user_memory{}` (also `Memory{}` in a member
initialiser list): value-initialisation.  The default constructor is defaulted on its
first declaration, so the object is zero-initialised and then default-initialised. -/
def ctor_value_init : mirrored_user_memory := ctor_default zeroed

/-- Source: `mirrored_user_memory(void* ptr, const std::size_t size)`.  The member
initialiser list sets `m_size` and `m_numa_node`; the flags take their default member
initialisers; the four addresses and `m_total_size` are not initialised. -/
def ctor_ptr_size (env : Env) (u : Storage) (trace : List Event) (ptr size : Nat) : State :=
  let st0 : State :=
    { obj :=
        { m_from_host := false
          m_from_device := false
          m_address := u.m_address
          m_address_device := u.m_address_device
          m_raw_address := u.m_raw_address
          m_raw_address_device := u.m_raw_address_device
          m_size := size
          m_total_size := u.m_total_size
          m_numa_node := -1 }
      trace := trace }
  if !is_on_device env ptr then
    let st1 := _device_alloc env st0 size
    { st1 with obj := { st1.obj with m_address := ptr, m_raw_address := ptr, m_from_host := true } }
  else
    let st1 := _host_alloc env st0 size
    { st1 with
      obj := { st1.obj with
               m_address_device := ptr, m_raw_address_device := ptr, m_from_device := true } }

/-- Source: `mirrored_user_memory(void* ptr_a, void* ptr_b, const std::size_t size)`.
The statement `mirrored_user_memory{};` creates a value-initialised temporary, which is
destroyed at the end of that statement; `*this` is not touched by it. -/
def ctor_ptr_ptr_size (env : Env) (u : Storage) (trace : List Event)
    (ptr_a ptr_b size : Nat) : State :=
  let st0 : State :=
    { obj :=
        { m_from_host := true
          m_from_device := true
          m_address := u.m_address
          m_address_device := u.m_address_device
          m_raw_address := u.m_raw_address
          m_raw_address_device := u.m_raw_address_device
          m_size := size
          m_total_size := size
          m_numa_node := -1 }
      trace := trace }
  let st1 : State :=
    if is_on_device env ptr_a = is_on_device env ptr_b then
      let printed := st0.trace ++ [Event.print Msg.both_pointers_same_kind]
      let temporary := dtor env { obj := ctor_value_init, trace := printed }
      { st0 with trace := temporary.trace }
    else st0
  if is_on_device env ptr_b then
    { st1 with
      obj := { st1.obj with
               m_address := ptr_a
               m_address_device := ptr_b
               m_raw_address := ptr_a
               m_raw_address_device := ptr_b } }
  else st1

/-- The copy constructor the compiler declares implicitly (memberwise copy).  The class
declares a destructor and no move constructor, so no move constructor is declared for
it and `Memory{std::move(mem)}` selects this copy constructor; the source object is
left as it was. -/
def ctor_copy (other : mirrored_user_memory) : mirrored_user_memory :=
  { m_from_host := other.m_from_host
    m_from_device := other.m_from_device
    m_address := other.m_address
    m_address_device := other.m_address_device
    m_raw_address := other.m_raw_address
    m_raw_address_device := other.m_raw_address_device
    m_size := other.m_size
    m_total_size := other.m_total_size
    m_numa_node := other.m_numa_node }

/-- Source: `void* get_address(void)`. -/
def get_address (m : mirrored_user_memory) : Nat := m.m_address

/-- Source: `void* get_address_device(void)`. -/
def get_address_device (m : mirrored_user_memory) : Nat := m.m_address_device

/-- Source: `std::size_t get_size(void)`. -/
def get_size (m : mirrored_user_memory) : Nat := m.m_size

/-- Source: `int get_numa_node(void)`. -/
def get_numa_node (m : mirrored_user_memory) : Int := m.m_numa_node

end mirrored_user_memory

/-! ## Counting collaborator calls in a trace -/

/-- Number of calls of the host mapping primitive `mmap`. -/
def mmap_calls (t : List Event) : Nat :=
  t.countP fun e => match e with
    | Event.mmap _ => true
    | _ => false

/-- Number of calls of the host unmapping primitive `munmap`. -/
def munmap_calls (t : List Event) : Nat :=
  t.countP fun e => match e with
    | Event.munmap _ _ => true
    | _ => false

/-- Number of calls of the device allocation primitive `cudaMalloc`. -/
def cudaMalloc_calls (t : List Event) : Nat :=
  t.countP fun e => match e with
    | Event.cudaMalloc _ => true
    | _ => false

/-- Number of calls of the device release primitive `cudaFree`. -/
def cudaFree_calls (t : List Event) : Nat :=
  t.countP fun e => match e with
    | Event.cudaFree _ => true
    | _ => false

/-! ## `not_pinned<Memory>` -/

/-- The class `not_pinned<Memory>`: the base subobject `Memory` and the member
`m_pinned`. -/
structure not_pinned (Memory : Type) where
  toMemory : Memory
  m_pinned : Bool

/-- The constructors of a class `Memory` that `not_pinned<Memory>` forwards to.  A
constructor may act on the outside world `W` (for `mirrored_user_memory`, the trace). -/
structure MemoryCtors (Memory W : Type) where
  /-- The expression `Memory{}`. -/
  no_argument : W → Memory × W
  /-- The expression `Memory{std::move(mem)}`. -/
  from_rvalue : Memory → W → Memory × W
  /-- The expression `Memory{size, alignement}`. -/
  size_alignement : Nat → Nat → W → Memory × W
  /-- The expression `Memory{ptr, size}`. -/
  ptr_size : Nat → Nat → W → Memory × W

namespace not_pinned

variable {Memory W : Type}

/-- Source: `not_pinned() : Memory{} {}`; the argument is the constructor `Memory{}`. -/
def ctor_no_argument (Memory_no_argument : W → Memory × W) (w : W) : not_pinned Memory × W :=
  let base := Memory_no_argument w
  ({ toMemory := base.1, m_pinned := false }, base.2)

/-- Source: `not_pinned(Memory&& mem) : Memory{std::move(mem)} {}`. -/
def ctor_memory (Memory_from_rvalue : Memory → W → Memory × W) (mem : Memory) (w : W) :
    not_pinned Memory × W :=
  let base := Memory_from_rvalue mem w
  ({ toMemory := base.1, m_pinned := false }, base.2)

/-- Source: `not_pinned(const std::size_t size, const std::size_t alignement = 0)`;
a call with the size alone passes `0` for `alignement`. -/
def ctor_size_alignement (Memory_size_alignement : Nat → Nat → W → Memory × W)
    (size alignement : Nat) (w : W) : not_pinned Memory × W :=
  let base := Memory_size_alignement size alignement w
  ({ toMemory := base.1, m_pinned := false }, base.2)

/-- Source: `not_pinned(void* ptr, const std::size_t size) : Memory{ptr, size} {}`. -/
def ctor_ptr_size (Memory_ptr_size : Nat → Nat → W → Memory × W) (ptr size : Nat) (w : W) :
    not_pinned Memory × W :=
  let base := Memory_ptr_size ptr size w
  ({ toMemory := base.1, m_pinned := false }, base.2)

/-- Source: `not_pinned(not_pinned&&) noexcept = default;`: the base subobject is
initialised from the base of the source as an rvalue and `m_pinned` is copied. -/
def ctor_move (Memory_from_rvalue : Memory → W → Memory × W) (other : not_pinned Memory)
    (w : W) : not_pinned Memory × W :=
  let base := Memory_from_rvalue other.toMemory w
  ({ toMemory := base.1, m_pinned := other.m_pinned }, base.2)

/-- Source: `~not_pinned() {}`: an empty body, then the destructor of the base. -/
def dtor (Memory_dtor : Memory → W → W) (self : not_pinned Memory) (w : W) : W :=
  Memory_dtor self.toMemory w

end not_pinned

/-- A way of building a `not_pinned<Memory>`: one of its five constructors with its
arguments; the argument of the move constructor is itself an object built earlier. -/
inductive Construction (Memory : Type)
  | no_argument
  | from_memory (mem : Memory)
  | size_alignement (size alignement : Nat)
  | ptr_size (ptr size : Nat)
  | from_not_pinned (source : Construction Memory)

namespace Construction

variable {Memory W : Type}

/-- Run a construction with the constructors of `not_pinned<Memory>`. -/
def decorated (M : MemoryCtors Memory W) : Construction Memory → W → not_pinned Memory × W
  | no_argument, w => not_pinned.ctor_no_argument M.no_argument w
  | from_memory mem, w => not_pinned.ctor_memory M.from_rvalue mem w
  | size_alignement size alignement, w =>
    not_pinned.ctor_size_alignement M.size_alignement size alignement w
  | ptr_size ptr size, w => not_pinned.ctor_ptr_size M.ptr_size ptr size w
  | from_not_pinned source, w =>
    let built := decorated M source w
    not_pinned.ctor_move M.from_rvalue built.1 built.2

/-- Run the same construction with the constructors of `Memory` alone. -/
def plain (M : MemoryCtors Memory W) : Construction Memory → W → Memory × W
  | no_argument, w => M.no_argument w
  | from_memory mem, w => M.from_rvalue mem w
  | size_alignement size alignement, w => M.size_alignement size alignement w
  | ptr_size ptr size, w => M.ptr_size ptr size w
  | from_not_pinned source, w =>
    let built := plain M source w
    M.from_rvalue built.1 built.2

end Construction

/-! ## The registration customization point -/

/-- The free function `register_memory(context, ptr, size)` that a transport supplies
for its context type and that argument-dependent lookup finds; `R` is the type of the
memory region object it returns. -/
class RegisterMemory (Context : Type) (R : outParam Type) where
  register_memory : Context → Nat → Nat → R

namespace register_fn

/-- Source: `register_fn::operator()(context&& c, void* ptr, std::size_t size)`. -/
def call {Context R : Type} [RegisterMemory Context R] (c : Context) (ptr size : Nat) : R :=
  RegisterMemory.register_memory c ptr size

end register_fn

/-! ## `not_pinned<mirrored_user_memory<Base>>` -/

namespace mirrored_user_memory

/-- The expression `Memory{std::move(mem)}` for `Memory = mirrored_user_memory<Base>`:
the implicit copy constructor; it calls no collaborator. -/
def from_rvalue (mem : mirrored_user_memory) (trace : List Event) :
    mirrored_user_memory × List Event :=
  (ctor_copy mem, trace)

/-- The destructor of `mirrored_user_memory` as the base destructor of `not_pinned`. -/
def destroy (env : Env) (self : mirrored_user_memory) (trace : List Event) : List Event :=
  (dtor env { obj := self, trace := trace }).trace

end mirrored_user_memory

/-! ## A transport for evaluating the customization point -/

/-- The context of a mock transport. -/
structure MockTransport where
  max_size : Nat

/-- The failure a transport reports when it rejects a range. -/
inductive RegistrationFailure
  | rejected (ptr size : Nat)
  deriving DecidableEq, Repr

/-- The memory region object of the mock transport. -/
structure MockRegion where
  ptr : Nat
  size : Nat
  local_key : Nat
  remote_key : Nat
  deriving DecidableEq, Repr

/-- The `register_memory` function of the mock transport: it rejects the null address
and every range larger than the context allows. -/
instance : RegisterMemory MockTransport (Except RegistrationFailure MockRegion) where
  register_memory c ptr size :=
    if ptr = 0 ∨ c.max_size < size then Except.error (RegistrationFailure.rejected ptr size)
    else Except.ok { ptr := ptr, size := size, local_key := ptr + 1, remote_key := ptr + 2 }

/-! ## Concrete collaborators and storage, for evaluating the code -/

/-- A mock of the collaborators.  Addresses from `0x700000000` on are device-resident
(`attributes.type == 2`), all others are not; `mmap` and `cudaMalloc` always give the
answers passed in; `munmap` rejects an empty range, as the system call does. -/
def mock (mmap_answer : Nat) (cudaMalloc_answer : CudaMallocAnswer) : Env :=
  { cudaPointerGetAttributes := fun p => if 0x700000000 ≤ p then (0, 2) else (0, 0)
    mmap := fun _ _ => mmap_answer
    munmap := fun _ _ length => if length = 0 then -1 else 0
    cudaMalloc := fun _ _ => cudaMalloc_answer }

/-- Storage that still holds the bytes of an earlier use. -/
def stale : Storage :=
  { m_address := 0xdead0
    m_address_device := 0xdead1
    m_raw_address := 0xdead2
    m_raw_address_device := 0xdead3
    m_size := 7
    m_total_size := 0x1000
    m_numa_node := 5 }

/-- An object of logical size `size` before any allocation, with an empty trace: the
members as the one-address constructor initialises them, the rest from the storage. -/
def State.initial (u : Storage) (size : Nat) : State :=
  { obj :=
      { m_from_host := false
        m_from_device := false
        m_address := u.m_address
        m_address_device := u.m_address_device
        m_raw_address := u.m_raw_address
        m_raw_address_device := u.m_raw_address_device
        m_size := size
        m_total_size := u.m_total_size
        m_numa_node := -1 }
    trace := [] }

/-! ## Alignment arithmetic -/

namespace mirrored_user_memory

/-- Without wrap-around and for a nonzero alignment, `_align` adds the distance to the
next multiple of the alignment. -/
theorem _align_eq (r a : Nat) (ha : a ≠ 0) (hraw : r + (a - 1) < WORD) :
    _align r a = if r % a = 0 then r else r + (a - r % a) := by
  have hlt : r % a < a := Nat.mod_lt _ (Nat.pos_of_ne_zero ha)
  unfold _align
  simp only [ha, if_false]
  by_cases h0 : r % a = 0
  · simp only [h0, if_true, Nat.add_zero]
    exact Nat.mod_eq_of_lt (by omega)
  · simp only [h0, if_false]
    exact Nat.mod_eq_of_lt (by omega)

/-- The result of `_align`, without wrap-around, is a multiple of the alignment. -/
theorem _align_dvd (r a : Nat) (ha : a ≠ 0) (hraw : r + (a - 1) < WORD) :
    a ∣ _align r a := by
  have hlt : r % a < a := Nat.mod_lt _ (Nat.pos_of_ne_zero ha)
  rw [_align_eq r a ha hraw]
  by_cases h0 : r % a = 0
  · simp only [h0, if_true]
    exact Nat.dvd_of_mod_eq_zero h0
  · simp only [h0, if_false]
    have hdiv : a * (r / a) + r % a = r := Nat.div_add_mod r a
    have heq : r + (a - r % a) = a * (r / a + 1) := by
      rw [Nat.mul_add, Nat.mul_one]
      omega
    rw [heq]
    exact Nat.dvd_mul_right a _

/-- The result of `_align`, without wrap-around, lies in `[r, r + a)`. -/
theorem _align_range (r a : Nat) (ha : a ≠ 0) (hraw : r + (a - 1) < WORD) :
    r ≤ _align r a ∧ _align r a < r + a := by
  have hlt : r % a < a := Nat.mod_lt _ (Nat.pos_of_ne_zero ha)
  rw [_align_eq r a ha hraw]
  by_cases h0 : r % a = 0
  · simp only [h0, if_true]
    omega
  · simp only [h0, if_false]
    omega

/-- A multiple of `a` in `[r, r + a)` is the least multiple of `a` that is at least `r`. -/
theorem least_multiple (r a x m : Nat) (hx : a ∣ x) (hxlt : x < r + a)
    (hm : a ∣ m) (hrm : r ≤ m) : x ≤ m := by
  obtain ⟨i, rfl⟩ := hx
  obtain ⟨j, rfl⟩ := hm
  by_contra hcon
  have hji : j < i := by
    by_contra hle
    exact hcon (Nat.mul_le_mul_left a (Nat.le_of_not_lt hle))
  have hstep : a * (j + 1) ≤ a * i := Nat.mul_le_mul_left a hji
  rw [Nat.mul_add, Nat.mul_one] at hstep
  omega

/-- C1, amended: for every raw address `r`, every alignment `a` that passes the
power-of-two test of `_set_total_size` and every logical size `s > 0` such that neither
`s + a - 1` nor `r + (a - 1)` wraps around the 64 bit word, with `total_padded_size` the
value set by `_set_total_size(a)` and `aligned = _align(r, a)`: `aligned % a == 0`,
`r <= aligned < r + a`, `aligned` is the smallest multiple of `a` that is `>= r`,
`total_padded_size == s + a - 1` and `aligned + s <= r + total_padded_size`. -/
theorem align_within_padded_block (st : State) (r a : Nat)
    (ha : a ≠ 0) (hpow : a &&& (a - 1) = 0) (hs : 0 < st.obj.m_size)
    (hsize : st.obj.m_size + a - 1 < WORD) (hraw : r + (a - 1) < WORD) :
    _align r a % a = 0 ∧ r ≤ _align r a ∧ _align r a < r + a ∧
    (∀ m, a ∣ m → r ≤ m → _align r a ≤ m) ∧
    (_set_total_size st a).obj.m_total_size = st.obj.m_size + a - 1 ∧
    _align r a + st.obj.m_size ≤ r + (_set_total_size st a).obj.m_total_size := by
  have hdvd := _align_dvd r a ha hraw
  have hrange := _align_range r a ha hraw
  have htotal : (_set_total_size st a).obj.m_total_size = st.obj.m_size + a - 1 := by
    unfold _set_total_size
    simp only [ha, if_false, hpow, ne_eq, not_true_eq_false]
    exact Nat.mod_eq_of_lt hsize
  refine ⟨Nat.mod_eq_zero_of_dvd hdvd, hrange.1, hrange.2, ?_, htotal, ?_⟩
  · intro m hm hrm
    exact least_multiple r a (_align r a) m hdvd hrange.2 hm hrm
  · rw [htotal]
    omega

/-- C1 at a concrete input: size 100, alignment 4096, raw address 4097. -/
theorem align_within_padded_block_witness :
    ((4096 : Nat) ≠ 0 ∧ 4096 &&& (4096 - 1) = 0 ∧ 0 < (State.initial stale 100).obj.m_size ∧
      (State.initial stale 100).obj.m_size + 4096 - 1 < WORD ∧ 4097 + (4096 - 1) < WORD) ∧
    _align 4097 4096 % 4096 = 0 ∧
    _align 4097 4096 + (State.initial stale 100).obj.m_size
      ≤ 4097 + (_set_total_size (State.initial stale 100) 4096).obj.m_total_size :=
  ⟨by decide,
   (align_within_padded_block (State.initial stale 100) 4097 4096
      (by decide) (by decide) (by decide) (by decide) (by decide)).1,
   (align_within_padded_block (State.initial stale 100) 4097 4096
      (by decide) (by decide) (by decide) (by decide) (by decide)).2.2.2.2.2⟩

/-- C1 as stated fails where the 64 bit arithmetic wraps.  With size `2^64 - 1` and
alignment 4096, `_set_total_size` stores 4094 and the aligned address plus the size lies
beyond the end of the block; with raw address `2^64 - 3` and alignment 4, `_align` wraps
to 0, below the raw address. -/
theorem align_claim_fails_on_wrap :
    ((4096 : Nat) ≠ 0 ∧ 4096 &&& (4096 - 1) = 0 ∧
      0 < (State.initial zeroed (WORD - 1)).obj.m_size ∧
      (_set_total_size (State.initial zeroed (WORD - 1)) 4096).obj.m_total_size = 4094 ∧
      ¬ (_align 4096 4096 + (State.initial zeroed (WORD - 1)).obj.m_size
          ≤ 4096 + (_set_total_size (State.initial zeroed (WORD - 1)) 4096).obj.m_total_size)) ∧
    ((4 : Nat) ≠ 0 ∧ 4 &&& (4 - 1) = 0 ∧ _align (WORD - 3) 4 = 0 ∧
      ¬ (WORD - 3 ≤ _align (WORD - 3) 4)) := by
  decide

/-! ## What each member function does to the flags and to the trace -/

/-- The function `_set_total_size` calls no collaborator and leaves the flags alone. -/
theorem _set_total_size_frame (st : State) (alignment : Nat) :
    mmap_calls (_set_total_size st alignment).trace = mmap_calls st.trace ∧
    munmap_calls (_set_total_size st alignment).trace = munmap_calls st.trace ∧
    cudaMalloc_calls (_set_total_size st alignment).trace = cudaMalloc_calls st.trace ∧
    cudaFree_calls (_set_total_size st alignment).trace = cudaFree_calls st.trace ∧
    (_set_total_size st alignment).obj.m_from_host = st.obj.m_from_host ∧
    (_set_total_size st alignment).obj.m_from_device = st.obj.m_from_device := by
  unfold _set_total_size
  split
  · simp
  · split <;>
      simp [mmap_calls, munmap_calls, cudaMalloc_calls, cudaFree_calls, List.countP_append]

/-- The function `_host_alloc` calls `mmap` once, whatever the alignment, calls no
other allocation or release primitive and leaves the flags alone. -/
theorem _host_alloc_frame (env : Env) (st : State) (alignment : Nat) :
    mmap_calls (_host_alloc env st alignment).trace = mmap_calls st.trace + 1 ∧
    munmap_calls (_host_alloc env st alignment).trace = munmap_calls st.trace ∧
    cudaMalloc_calls (_host_alloc env st alignment).trace = cudaMalloc_calls st.trace ∧
    cudaFree_calls (_host_alloc env st alignment).trace = cudaFree_calls st.trace ∧
    (_host_alloc env st alignment).obj.m_from_host = st.obj.m_from_host ∧
    (_host_alloc env st alignment).obj.m_from_device = st.obj.m_from_device := by
  obtain ⟨h1, h2, h3, h4, h5, h6⟩ := _set_total_size_frame st alignment
  unfold _host_alloc
  simp only
  split
  · simp [mmap_calls, munmap_calls, cudaMalloc_calls, cudaFree_calls, List.countP_append] at *
    simp [h1, h2, h3, h4, h5, h6]
  · split <;>
    · simp [mmap_calls, munmap_calls, cudaMalloc_calls, cudaFree_calls, List.countP_append] at *
      simp [h1, h2, h3, h4, h5, h6]

/-- The function `_device_alloc` calls `cudaMalloc` once, whatever the alignment, calls
no other allocation or release primitive and leaves the flags alone. -/
theorem _device_alloc_frame (env : Env) (st : State) (alignment : Nat) :
    mmap_calls (_device_alloc env st alignment).trace = mmap_calls st.trace ∧
    munmap_calls (_device_alloc env st alignment).trace = munmap_calls st.trace ∧
    cudaMalloc_calls (_device_alloc env st alignment).trace = cudaMalloc_calls st.trace + 1 ∧
    cudaFree_calls (_device_alloc env st alignment).trace = cudaFree_calls st.trace ∧
    (_device_alloc env st alignment).obj.m_from_host = st.obj.m_from_host ∧
    (_device_alloc env st alignment).obj.m_from_device = st.obj.m_from_device := by
  obtain ⟨h1, h2, h3, h4, h5, h6⟩ := _set_total_size_frame st alignment
  unfold _device_alloc
  simp only
  split <;>
  · simp [mmap_calls, munmap_calls, cudaMalloc_calls, cudaFree_calls, List.countP_append] at *
    simp [h1, h2, h3, h4, h5, h6]

/-- The destructor calls `munmap` once exactly when `m_from_host` is false and
`cudaFree` once exactly when `m_from_device` is false; it allocates nothing. -/
theorem dtor_calls (env : Env) (st : State) :
    munmap_calls (dtor env st).trace
      = munmap_calls st.trace + (if st.obj.m_from_host then 0 else 1) ∧
    cudaFree_calls (dtor env st).trace
      = cudaFree_calls st.trace + (if st.obj.m_from_device then 0 else 1) ∧
    mmap_calls (dtor env st).trace = mmap_calls st.trace ∧
    cudaMalloc_calls (dtor env st).trace = cudaMalloc_calls st.trace := by
  unfold dtor _host_dealloc _device_dealloc
  cases hh : st.obj.m_from_host <;> cases hd : st.obj.m_from_device <;>
    simp [mmap_calls, munmap_calls, cudaMalloc_calls, cudaFree_calls, List.countP_append, hh, hd] <;>
    split <;> simp [hh, hd]

/-- With alignment 3 the function `_set_total_size` prints the error message and
changes no member. -/
theorem _set_total_size_three (st : State) :
    _set_total_size st 3
      = { obj := st.obj, trace := st.trace ++ [Event.print Msg.null_or_odd_alignement] } := by
  rfl

/-- The one-address constructor sets `m_from_host` exactly for an address that is not
on the device and `m_from_device` exactly for one that is; it calls the allocation
primitive of the other side once and releases nothing. -/
theorem ctor_ptr_size_frame (env : Env) (u : Storage) (trace : List Event) (ptr size : Nat) :
    (ctor_ptr_size env u trace ptr size).obj.m_from_host = !is_on_device env ptr ∧
    (ctor_ptr_size env u trace ptr size).obj.m_from_device = is_on_device env ptr ∧
    mmap_calls (ctor_ptr_size env u trace ptr size).trace
      = mmap_calls trace + (if is_on_device env ptr then 1 else 0) ∧
    cudaMalloc_calls (ctor_ptr_size env u trace ptr size).trace
      = cudaMalloc_calls trace + (if is_on_device env ptr then 0 else 1) ∧
    munmap_calls (ctor_ptr_size env u trace ptr size).trace = munmap_calls trace ∧
    cudaFree_calls (ctor_ptr_size env u trace ptr size).trace = cudaFree_calls trace := by
  unfold ctor_ptr_size
  cases hdev : is_on_device env ptr
  · simp only [Bool.not_false, if_true]
    have h := _device_alloc_frame env
      { obj :=
          { m_from_host := false
            m_from_device := false
            m_address := u.m_address
            m_address_device := u.m_address_device
            m_raw_address := u.m_raw_address
            m_raw_address_device := u.m_raw_address_device
            m_size := size
            m_total_size := u.m_total_size
            m_numa_node := -1 }
        trace := trace } size
    simp at h
    simp [h]
  · simp only [Bool.not_true, if_true]
    have h := _host_alloc_frame env
      { obj :=
          { m_from_host := false
            m_from_device := false
            m_address := u.m_address
            m_address_device := u.m_address_device
            m_raw_address := u.m_raw_address
            m_raw_address_device := u.m_raw_address_device
            m_size := size
            m_total_size := u.m_total_size
            m_numa_node := -1 }
        trace := trace } size
    simp at h
    simp [h]

/-- The two-address constructor sets both flags and calls no allocation primitive. -/
theorem ctor_ptr_ptr_size_frame (env : Env) (u : Storage) (trace : List Event)
    (ptr_a ptr_b size : Nat) :
    (ctor_ptr_ptr_size env u trace ptr_a ptr_b size).obj.m_from_host = true ∧
    (ctor_ptr_ptr_size env u trace ptr_a ptr_b size).obj.m_from_device = true ∧
    mmap_calls (ctor_ptr_ptr_size env u trace ptr_a ptr_b size).trace = mmap_calls trace ∧
    cudaMalloc_calls (ctor_ptr_ptr_size env u trace ptr_a ptr_b size).trace
      = cudaMalloc_calls trace := by
  unfold ctor_ptr_ptr_size
  simp only
  split <;> split <;> simp
  all_goals
    rename_i h1 h2
    have h := dtor_calls env
      { obj := ctor_value_init, trace := trace ++ [Event.print Msg.both_pointers_same_kind] }
    simp [mmap_calls, cudaMalloc_calls, List.countP_append] at h
    simp [mmap_calls, cudaMalloc_calls, h]

/-! ## The claims -/

/-- C4: for every object built by the one-address or by the two-address constructor,
destruction calls the release primitive of a side once if the object called the
allocation primitive of that side, and not at all if the address of that side was
supplied by the caller.  One supplied address that is not on the device: one `cudaFree`,
no `munmap`.  One supplied address on the device: one `munmap`, no `cudaFree`.  Two
supplied addresses: neither. -/
theorem destruction_releases_allocated_sides_only (env : Env) (u : Storage)
    (trace : List Event) (ptr ptr_a ptr_b size : Nat) :
    (munmap_calls (dtor env (ctor_ptr_size env u trace ptr size)).trace
        = munmap_calls (ctor_ptr_size env u trace ptr size).trace
          + (if is_on_device env ptr then 1 else 0) ∧
      cudaFree_calls (dtor env (ctor_ptr_size env u trace ptr size)).trace
        = cudaFree_calls (ctor_ptr_size env u trace ptr size).trace
          + (if is_on_device env ptr then 0 else 1)) ∧
    (mmap_calls (ctor_ptr_size env u trace ptr size).trace
        = mmap_calls trace + (if is_on_device env ptr then 1 else 0) ∧
      cudaMalloc_calls (ctor_ptr_size env u trace ptr size).trace
        = cudaMalloc_calls trace + (if is_on_device env ptr then 0 else 1)) ∧
    (munmap_calls (dtor env (ctor_ptr_ptr_size env u trace ptr_a ptr_b size)).trace
        = munmap_calls (ctor_ptr_ptr_size env u trace ptr_a ptr_b size).trace ∧
      cudaFree_calls (dtor env (ctor_ptr_ptr_size env u trace ptr_a ptr_b size)).trace
        = cudaFree_calls (ctor_ptr_ptr_size env u trace ptr_a ptr_b size).trace) ∧
    (mmap_calls (ctor_ptr_ptr_size env u trace ptr_a ptr_b size).trace = mmap_calls trace ∧
      cudaMalloc_calls (ctor_ptr_ptr_size env u trace ptr_a ptr_b size).trace
        = cudaMalloc_calls trace) := by
  obtain ⟨f1, f2, f3, f4, -, -⟩ := ctor_ptr_size_frame env u trace ptr size
  obtain ⟨g1, g2, g3, g4⟩ := ctor_ptr_ptr_size_frame env u trace ptr_a ptr_b size
  obtain ⟨d1, d2, -, -⟩ := dtor_calls env (ctor_ptr_size env u trace ptr size)
  obtain ⟨e1, e2, -, -⟩ := dtor_calls env (ctor_ptr_ptr_size env u trace ptr_a ptr_b size)
  rw [f1] at d1
  rw [f2] at d2
  rw [g1] at e1
  rw [g2] at e2
  refine ⟨⟨?_, ?_⟩, ⟨f3, f4⟩, ⟨?_, ?_⟩, ⟨g3, g4⟩⟩
  · rw [d1]
    cases is_on_device env ptr <;> simp
  · rw [d2]
  · simpa using e1
  · simpa using e2

/-- C2, what the code does: 3, 6 and 100 fail the power-of-two test, yet `_host_alloc`
calls `mmap` once and `_device_alloc` calls `cudaMalloc` once for every alignment, and
`_mirror_alloc` calls each once.  With alignment 3 the error message is printed,
`m_total_size` is left as it was and `mmap` is called with that stale size.  The
one-address constructor reaches this path: for a device-resident address and size 6 it
calls `_host_alloc(6)`, which maps a block of the size the storage happened to hold. -/
theorem bad_alignment_still_allocates (env : Env) (st : State) (size : Nat) :
    ((3 : Nat) &&& (3 - 1) ≠ 0 ∧ (6 : Nat) &&& (6 - 1) ≠ 0 ∧ (100 : Nat) &&& (100 - 1) ≠ 0) ∧
    (∀ alignment,
      mmap_calls (_host_alloc env st alignment).trace = mmap_calls st.trace + 1) ∧
    (∀ alignment,
      cudaMalloc_calls (_device_alloc env st alignment).trace
        = cudaMalloc_calls st.trace + 1) ∧
    (∀ alignment,
      mmap_calls (_mirror_alloc env st alignment size).trace = mmap_calls st.trace + 1 ∧
      cudaMalloc_calls (_mirror_alloc env st alignment size).trace
        = cudaMalloc_calls st.trace + 1) ∧
    Event.print Msg.null_or_odd_alignement ∈ (_host_alloc env st 3).trace ∧
    Event.mmap st.obj.m_total_size ∈ (_host_alloc env st 3).trace ∧
    Event.cudaMalloc st.obj.m_total_size ∈ (_device_alloc env st 3).trace ∧
    (ctor_ptr_size (mock 0x10000 ⟨0, none⟩) stale [] 0x700000000 6).trace
      = [Event.print Msg.null_or_odd_alignement, Event.mmap stale.m_total_size,
         Event.madvise 0x10000 stale.m_total_size, Event.print Msg.host_mmaped,
         Event.print Msg.aligned_host_pointer] := by
  refine ⟨by decide, fun alignment => (_host_alloc_frame env st alignment).1,
    fun alignment => (_device_alloc_frame env st alignment).2.2.1, ?_, ?_, ?_, ?_, by decide⟩
  · intro alignment
    unfold _mirror_alloc
    simp only
    obtain ⟨s1, -, s3, -, -, -⟩ := _set_total_size_frame st alignment
    obtain ⟨a1, -, a3, -, -, -⟩ := _host_alloc_frame env (_set_total_size st alignment) alignment
    obtain ⟨b1, -, b3, -, -, -⟩ :=
      _device_alloc_frame env (_host_alloc env (_set_total_size st alignment) alignment) alignment
    omega
  · unfold _host_alloc
    rw [_set_total_size_three]
    simp only
    split_ifs <;> simp
  · unfold _host_alloc
    rw [_set_total_size_three]
    simp only
    split_ifs <;> simp
  · unfold _device_alloc
    rw [_set_total_size_three]
    simp only
    split_ifs <;> simp

/-- C3, what the code does: the one-address constructor passes the size where
`_device_alloc` expects an alignment.  For an address that is not on the device and
`N = 512`, `cudaMalloc` is called with 1023 bytes and the aligned device address
(`0x700000200`) differs from the raw one (`0x700000100`).  For `N = 3` the alignment test
fails and `cudaMalloc` is called with whatever `m_total_size` held before. -/
theorem one_address_ctor_passes_size_as_alignment :
    is_on_device (mock 0 ⟨0, some 0x700000100⟩) 0x10000 = false ∧
    (ctor_ptr_size (mock 0 ⟨0, some 0x700000100⟩) stale [] 0x10000 512).trace
      = [Event.cudaMalloc 1023, Event.print Msg.device_cudaMallocated,
         Event.print Msg.aligned_device_pointer] ∧
    (ctor_ptr_size (mock 0 ⟨0, some 0x700000100⟩) stale [] 0x10000 512).obj.m_total_size
      = 1023 ∧
    (ctor_ptr_size (mock 0 ⟨0, some 0x700000100⟩) stale [] 0x10000 512).obj.m_raw_address_device
      = 0x700000100 ∧
    (ctor_ptr_size (mock 0 ⟨0, some 0x700000100⟩) stale [] 0x10000 512).obj.m_address_device
      = 0x700000200 ∧
    (ctor_ptr_size (mock 0 ⟨0, some 0x700000100⟩) stale [] 0x10000 3).trace
      = [Event.print Msg.null_or_odd_alignement, Event.cudaMalloc stale.m_total_size,
         Event.print Msg.device_cudaMallocated, Event.print Msg.aligned_device_pointer] := by
  decide

/-- C5, what the code does: with two device-resident addresses the two-address
constructor prints the error, builds and destroys a temporary (one `munmap` and one
`cudaFree` of null) and then stores both addresses in the object all the same.  With two
addresses that are not on the device, the four addresses keep what the storage held. -/
theorem same_kind_pointers_are_still_stored :
    is_on_device (mock 0 ⟨0, none⟩) 0x700000000 = true ∧
    is_on_device (mock 0 ⟨0, none⟩) 0x700000100 = true ∧
    (ctor_ptr_ptr_size (mock 0 ⟨0, none⟩) stale [] 0x700000000 0x700000100 64).trace
      = [Event.print Msg.both_pointers_same_kind, Event.munmap 0 0,
         Event.print Msg.munmap_failed, Event.cudaFree 0, Event.print Msg.device_cudaFreed] ∧
    (ctor_ptr_ptr_size (mock 0 ⟨0, none⟩) stale [] 0x700000000 0x700000100 64).obj
      = { m_from_host := true
          m_from_device := true
          m_address := 0x700000000
          m_address_device := 0x700000100
          m_raw_address := 0x700000000
          m_raw_address_device := 0x700000100
          m_size := 64
          m_total_size := 64
          m_numa_node := -1 } ∧
    is_on_device (mock 0 ⟨0, none⟩) 0x10000 = false ∧
    is_on_device (mock 0 ⟨0, none⟩) 0x20000 = false ∧
    (ctor_ptr_ptr_size (mock 0 ⟨0, none⟩) stale [] 0x10000 0x20000 64).obj
      = { m_from_host := true
          m_from_device := true
          m_address := stale.m_address
          m_address_device := stale.m_address_device
          m_raw_address := stale.m_raw_address
          m_raw_address_device := stale.m_raw_address_device
          m_size := 64
          m_total_size := 64
          m_numa_node := -1 } := by
  decide

/-- C7, what the code does: when `mmap` returns `MAP_FAILED`, `_host_alloc` prints the
error and sets `m_raw_address` to null, but `m_address` keeps what the storage held, and
`get_address()` returns it.  When `cudaMalloc` fails without storing a pointer,
`m_raw_address_device` keeps what the storage held and is then aligned as if it were the
result; when it fails and stores null, `m_address_device` keeps what the storage held. -/
theorem failed_allocation_leaves_stale_aligned_address :
    is_on_device (mock MAP_FAILED ⟨0, none⟩) 0x700000000 = true ∧
    Event.print Msg.mmap_failed
      ∈ (ctor_ptr_size (mock MAP_FAILED ⟨0, none⟩) stale [] 0x700000000 64).trace ∧
    (ctor_ptr_size (mock MAP_FAILED ⟨0, none⟩) stale [] 0x700000000 64).obj.m_raw_address
      = nullptr ∧
    get_address (ctor_ptr_size (mock MAP_FAILED ⟨0, none⟩) stale [] 0x700000000 64).obj
      = 0xdead0 ∧
    (_host_alloc (mock MAP_FAILED ⟨0, none⟩) (State.initial stale 64) 0).obj.m_address
      = 0xdead0 ∧
    is_on_device (mock 0 ⟨2, none⟩) 0x10000 = false ∧
    (ctor_ptr_size (mock 0 ⟨2, none⟩) stale [] 0x10000 64).obj.m_raw_address_device
      = 0xdead3 ∧
    get_address_device (ctor_ptr_size (mock 0 ⟨2, none⟩) stale [] 0x10000 64).obj
      = 0xdeb00 ∧
    (ctor_ptr_size (mock 0 ⟨2, some 0⟩) stale [] 0x10000 64).obj.m_raw_address_device
      = nullptr ∧
    Event.print Msg.device_allocation_failed
      ∈ (ctor_ptr_size (mock 0 ⟨2, some 0⟩) stale [] 0x10000 64).trace ∧
    get_address_device (ctor_ptr_size (mock 0 ⟨2, some 0⟩) stale [] 0x10000 64).obj
      = 0xdead1 := by
  decide

/-- C10, what the code does: with the device-resident address first and the other
address second, the two-address constructor accepts the pair (no error is printed) and
stores neither address: `get_address()` and `get_address_device()` return what the
storage held.  In the other order both addresses are stored. -/
theorem device_first_pair_is_not_stored :
    is_on_device (mock 0 ⟨0, none⟩) 0x700000000 = true ∧
    is_on_device (mock 0 ⟨0, none⟩) 0x10000 = false ∧
    (ctor_ptr_ptr_size (mock 0 ⟨0, none⟩) stale [] 0x700000000 0x10000 64).trace = [] ∧
    get_address (ctor_ptr_ptr_size (mock 0 ⟨0, none⟩) stale [] 0x700000000 0x10000 64).obj
      = 0xdead0 ∧
    get_address_device
        (ctor_ptr_ptr_size (mock 0 ⟨0, none⟩) stale [] 0x700000000 0x10000 64).obj
      = 0xdead1 ∧
    get_size (ctor_ptr_ptr_size (mock 0 ⟨0, none⟩) stale [] 0x700000000 0x10000 64).obj
      = 64 ∧
    get_address (ctor_ptr_ptr_size (mock 0 ⟨0, none⟩) stale [] 0x10000 0x700000000 64).obj
      = 0x10000 ∧
    get_address_device
        (ctor_ptr_ptr_size (mock 0 ⟨0, none⟩) stale [] 0x10000 0x700000000 64).obj
      = 0x700000000 := by
  decide

/-- C6, what the code does: the class has a destructor and no move constructor, so
moving from `m` (directly or through the two move constructors of `not_pinned`) copies
all members to the destination and leaves `m` as it was.  Destroying the source
afterwards calls `munmap` once if `m_from_host` is false and `cudaFree` once if
`m_from_device` is false.  For the object built by the one-address constructor from an
address that is not on the device, the source and the destination each call `cudaFree`
on the same device address. -/
theorem move_leaves_source_owning (env : Env) (m : mirrored_user_memory) (t : List Event) :
    ctor_copy m = m ∧
    (not_pinned.ctor_memory from_rvalue m t).1.toMemory = m ∧
    (not_pinned.ctor_move from_rvalue (not_pinned.ctor_memory from_rvalue m t).1 t).1.toMemory
      = m ∧
    munmap_calls (dtor env { obj := m, trace := t }).trace
      = munmap_calls t + (if m.m_from_host then 0 else 1) ∧
    cudaFree_calls (dtor env { obj := m, trace := t }).trace
      = cudaFree_calls t + (if m.m_from_device then 0 else 1) ∧
    cudaFree_calls
        (dtor (mock 0 ⟨0, some 0x700000100⟩)
          { obj := (ctor_ptr_size (mock 0 ⟨0, some 0x700000100⟩) stale [] 0x10000 1).obj
            trace := [] }).trace = 1 ∧
    (dtor (mock 0 ⟨0, some 0x700000100⟩)
        { obj := ctor_copy (ctor_ptr_size (mock 0 ⟨0, some 0x700000100⟩) stale [] 0x10000 1).obj
          trace :=
            (dtor (mock 0 ⟨0, some 0x700000100⟩)
              { obj := (ctor_ptr_size (mock 0 ⟨0, some 0x700000100⟩) stale [] 0x10000 1).obj
                trace := [] }).trace }).trace
      = [Event.cudaFree 0x700000100, Event.print Msg.device_cudaFreed,
         Event.cudaFree 0x700000100, Event.print Msg.device_cudaFreed] := by
  have hd := dtor_calls env { obj := m, trace := t }
  refine ⟨rfl, rfl, rfl, hd.1, hd.2.1, by decide, by decide⟩

end mirrored_user_memory

/-- C8: for every constructor shape of `not_pinned<Memory>` (no argument, move from
`Memory`, size and alignment, address and size, move from `not_pinned`), the object
built has `m_pinned == false`, its `Memory` subobject is the one the corresponding
constructor of `Memory` builds from the same arguments, and the outside world is left
as that constructor leaves it. -/
theorem decoration_adds_only_m_pinned {Memory W : Type} (M : MemoryCtors Memory W)
    (c : Construction Memory) (w : W) :
    (c.decorated M w).1.m_pinned = false ∧
    (c.decorated M w).1.toMemory = (c.plain M w).1 ∧
    (c.decorated M w).2 = (c.plain M w).2 := by
  induction c generalizing w with
  | no_argument => exact ⟨rfl, rfl, rfl⟩
  | from_memory mem => exact ⟨rfl, rfl, rfl⟩
  | size_alignement size alignement => exact ⟨rfl, rfl, rfl⟩
  | ptr_size ptr size => exact ⟨rfl, rfl, rfl⟩
  | from_not_pinned source ih =>
    obtain ⟨hp, hm, hw⟩ := ih w
    simp only [Construction.decorated, Construction.plain, not_pinned.ctor_move]
    rw [hp, hm, hw]
    exact ⟨rfl, rfl, rfl⟩

/-- C9: for every transport context `c`, address `ptr` and size `n`, the customization
point object returns what the transport's own `register_memory` returns for the same
arguments, unchanged; for the mock transport a rejection comes back as the rejection
and a success as the region. -/
theorem register_fn_forwards {Context R : Type} [RegisterMemory Context R]
    (c : Context) (ptr n : Nat) :
    register_fn.call c ptr n = RegisterMemory.register_memory c ptr n ∧
    register_fn.call (MockTransport.mk 4096) 0 64
      = Except.error (RegistrationFailure.rejected 0 64) ∧
    register_fn.call (MockTransport.mk 4096) 0x10000 8192
      = Except.error (RegistrationFailure.rejected 0x10000 8192) ∧
    register_fn.call (MockTransport.mk 4096) 0x10000 4096
      = Except.ok (MockRegion.mk 0x10000 4096 0x10001 0x10002) := by
  exact ⟨rfl, rfl, rfl, rfl⟩

end pmimalloc
